import Mathlib

/-!
Shallow embedding of `src/index.js` (cronometro-notion-backend), the version
with the config guard and the corrected report function.

The remote services (Notion record store, Google Sheets) appear as data:
query results are passed in as lists of page records, and the spreadsheet is
an association list from sheet title to a 2-D table of cells.  Numbers are
embedded as rationals.  Each HTTP handler becomes a pure function from its
inputs (request body fields and remote query results) to its response.
-/

namespace Cronometro

/-- A spreadsheet cell: either a string or a number, matching the mixed rows
`[demandName, totalHours]` and the header of strings. -/
inductive Cell where
  | str (s : String)
  | num (q : ℚ)
deriving DecidableEq, Repr

/-- Embedding of the JS idiom `x?.title[0]?.plain_text || dflt`: the property
may be absent (`none`), the title list may be empty, and an empty string is
falsy so it also falls back to the default. -/
def titleOrDefault : Option (List String) → String → String
  | none, d => d
  | some [], d => d
  | some (s :: _), d => if s = "" then d else s

/-- A page of the demands database, with the fields the code reads:
`page.id`, `page.properties['Nome da Demanda']?.title`, and
`page.properties.Cliente?.relation` (a list of target ids). -/
structure NotionDemandPage where
  id : String
  nameTitle : Option (List String)
  clienteRel : Option (List String)
deriving DecidableEq, Repr

/-- A page of the time-log database, with the fields the report reads:
`page.properties.Demanda.relation` (absent property modelled as `none`)
and `page.properties.Duracao?.number || 0` (absent property or null
number both modelled as `none`). -/
structure TimeEntryPage where
  demandaRel : Option (List String)
  duracao : Option ℚ
deriving DecidableEq, Repr

/-- A page of the clients database: `page.id` and
`page.properties.Nome?.title`. -/
structure ClientPage where
  id : String
  nomeTitle : Option (List String)
deriving DecidableEq, Repr

/-! ## GET /api/clients and GET /api/demands -/

/-- Projected client object `{id, name}` (lines 244-247). -/
structure ClientView where
  id : String
  name : String
deriving DecidableEq, Repr

/-- Projected demand object `{id, name, clientId}` (lines 258-262). -/
structure DemandView where
  id : String
  name : String
  clientId : Option String
deriving DecidableEq, Repr

/-- Embedding of `page.properties.Cliente?.relation[0]?.id || null`:
absent property, empty relation list, or empty-string id all yield null. -/
def relHeadOrNull : Option (List String) → Option String
  | none => none
  | some [] => none
  | some (c :: _) => if c = "" then none else some c

/-- The projection GET /api/demands applies to each page (lines 258-262). -/
def projectDemand (p : NotionDemandPage) : DemandView :=
  { id := p.id
    name := titleOrDefault p.nameTitle "Sem nome"
    clientId := relHeadOrNull p.clienteRel }

/-- GET /api/demands success path: status 200 with the projected list
(lines 255-263). -/
def getDemands (pages : List NotionDemandPage) : Nat × List DemandView :=
  (200, pages.map projectDemand)

/-- GET /api/clients success path: status 200 with the projected list
(lines 241-248). -/
def getClients (pages : List ClientPage) : Nat × List ClientView :=
  (200, pages.map fun p => ⟨p.id, titleOrDefault p.nomeTitle "Sem nome"⟩)

/-- POST /api/demands success path (lines 270-284): status 201 and the body
`{id: <generated>, name: demandName, clientId: clientId}`. -/
def postDemands (generatedId clientId demandName : String) :
    Nat × DemandView :=
  (201, ⟨generatedId, demandName, some clientId⟩)

/-! ## POST /api/time-entries -/

/-- Embedding of `parseFloat(x.toFixed(4))` on a rational value: round to the
nearest multiple of 1/10000, ties to the larger value (Mathlib `round` is
`fun x => Int.floor (x + 1/2)`, which picks the larger of two nearest, as
`Number.prototype.toFixed` does). -/
def toFixed4 (x : ℚ) : ℚ := (round (x * 10000) : ℤ) / 10000

/-- The stored `Duracao` number of POST /api/time-entries (lines 293 and 301):
`durationSeconds / 3600` then `parseFloat(durationHours.toFixed(4))`. -/
def storedDurationHours (durationSeconds : ℚ) : ℚ :=
  toFixed4 (durationSeconds / 3600)

/-- POST /api/time-entries success path (lines 291-305): status 201, and the
created record carries the converted duration. -/
def postTimeEntries (durationSeconds : ℚ) : Nat × ℚ :=
  (201, storedDurationHours durationSeconds)

/-- The spec's wording, kept separate from the source embedding: "round
(d/3600, 4 decimal places)", i.e. the nearest 4-decimal number. -/
def specRound4dec (x : ℚ) : ℚ := (round (x * 10 ^ 4) : ℤ) / 10 ^ 4

/-! ## The aggregation step of POST /api/generate-report -/

/-- One step of the reduce at lines 372-375:
`acc[entry.demandName] = (acc[entry.demandName] || 0) + entry.duration`.
The accumulator object is an insertion-ordered association list; an existing
key is updated in place, a new key is appended. -/
def aggStep (acc : List (String × ℚ)) (e : String × ℚ) : List (String × ℚ) :=
  if e.1 ∈ acc.map Prod.fst then
    acc.map fun p => if p.1 = e.1 then (p.1, p.2 + e.2) else p
  else acc ++ [(e.1, e.2)]

/-- The reduce at lines 372-375 over the whole `reportData` list, starting
from the empty object. -/
def aggregate (reportData : List (String × ℚ)) : List (String × ℚ) :=
  reportData.foldl aggStep []

/-- The exact sum of the durations of the entries with the given name; the
value the spec says each group total must equal. -/
def keyTotal (l : List (String × ℚ)) (n : String) : ℚ :=
  ((l.filter fun p => p.1 = n).map Prod.snd).sum

/-- `sheetData` (line 377): the header row followed by
`Object.entries(aggregatedData)` as `[demandName, totalHours]` rows. -/
def sheetDataOf (reportData : List (String × ℚ)) : List (List Cell) :=
  [Cell.str "Demanda", Cell.str "Horas"]
    :: (aggregate reportData).map fun p => [Cell.str p.1, Cell.num p.2]

/-! ## POST /api/generate-report -/

/-- The name resolution inside the map at lines 358-365:
`clientDemands.find(d => d.id === demandRelation.id)`, with the fallback
`'Demanda Desconhecida'` when the target id is not in the lookup. -/
def resolveName (clientDemands : List (String × String)) (targetId : String) :
    String :=
  match clientDemands.find? fun d => d.1 = targetId with
  | some d => d.2
  | none => "Demanda Desconhecida"

/-- One element of the map at lines 358-365.  `page.properties.Demanda` is
read without optional chaining and `relation[0].id` without a guard, so an
absent property or an empty relation list throws (modelled as `none`, which
the catch at lines 404-407 turns into the 500 response).  The duration is
`page.properties.Duracao?.number || 0`. -/
def resolveEntry (clientDemands : List (String × String))
    (page : TimeEntryPage) : Option (String × ℚ) :=
  match page.demandaRel with
  | none => none
  | some [] => none
  | some (targetId :: _) =>
      some (resolveName clientDemands targetId, page.duracao.getD 0)

/-- JS `Array.prototype.map` with exception propagation: the first element on
which `f` throws aborts the whole map. -/
def mapOrFail (f : α → Option β) : List α → Option (List β)
  | [] => some []
  | a :: l =>
    match f a with
    | none => none
    | some b =>
      match mapOrFail f l with
      | none => none
      | some bs => some (b :: bs)

/-- One Google Sheets API call made by the report endpoint. -/
inductive SheetsCall where
  | get
  | addSheet (title : String)
  | clear (range : String)
  | update (range : String) (values : List (List Cell))
deriving DecidableEq, Repr

/-- The spreadsheet: an association list from sheet title to its contents,
a 2-D table of cells. -/
abbrev SheetState : Type := List (String × List (List Cell))

/-- `batchUpdate` with an `addSheet` request: a new empty sheet. -/
def addSheetS (st : SheetState) (title : String) : SheetState :=
  st ++ [(title, [])]

/-- `values.clear` over the whole-sheet range: the sheet becomes empty. -/
def clearS (st : SheetState) (title : String) : SheetState :=
  st.map fun e => if e.1 = title then (e.1, ([] : List (List Cell))) else e

/-- Writing a row starting at column A overwrites the first cells of the old
row and keeps any cells to the right of the written width. -/
def overlayRow (old new : List Cell) : List Cell :=
  new ++ old.drop new.length

/-- Writing a table starting at cell A1 overwrites the covered region and
keeps the rest of the old contents. -/
def overlayTable : List (List Cell) → List (List Cell) → List (List Cell)
  | old, [] => old
  | old, r :: rs => overlayRow (old.headD []) r :: overlayTable old.tail rs

/-- `values.update` on range `title!A1`. -/
def updateS (st : SheetState) (title : String) (rows : List (List Cell)) :
    SheetState :=
  st.map fun e => if e.1 = title then (e.1, overlayTable e.2 rows) else e

/-- The sheet write sequence at lines 383-399: get metadata, add the sheet if
its title is absent, clear it, then update starting at A1.  Returns the new
spreadsheet state and the list of remote calls made. -/
def writeSheet (st : SheetState) (title : String) (rows : List (List Cell)) :
    SheetState × List SheetsCall :=
  let already := decide (title ∈ st.map Prod.fst)
  let st1 := if already then st else addSheetS st title
  let st2 := updateS (clearS st1 title) title rows
  (st2,
    [SheetsCall.get]
      ++ (if already then [] else [SheetsCall.addSheet title])
      ++ [SheetsCall.clear title, SheetsCall.update (title ++ "!A1") rows])

/-- The response of POST /api/generate-report: 200 with a message (and a
sheet URL on the success path), or 500 with an error message. -/
inductive RResp where
  | ok (message : String) (sheetUrl : Option String)
  | err (message : String)
deriving DecidableEq, Repr

/-- The HTTP status the two constructors are sent with. -/
def RResp.status : RResp → Nat
  | .ok _ _ => 200
  | .err _ => 500

/-- Everything POST /api/generate-report reads: the config flag `!sheets`
(lines 222-232 make `sheets` undefined exactly when credentials are missing),
the request body fields, and the results of the two Notion queries.  The
remote queries already applied the client filter and the 7-day window, so
their results are inputs here. -/
structure ReportEnv where
  sheetsConfigured : Bool
  clientId : String
  clientName : String
  spreadsheetId : String
  demandPages : List NotionDemandPage
  timeEntryPages : List TimeEntryPage

/-- `clientDemands` (lines 330-333): id and name of each fetched demand,
name defaulting to `'Demanda Sem Nome'`. -/
def clientDemands (env : ReportEnv) : List (String × String) :=
  env.demandPages.map fun p =>
    (p.id, titleOrDefault p.nameTitle "Demanda Sem Nome")

/-- POST /api/generate-report (lines 313-408) as a function from its inputs
and the current spreadsheet state to the new state, the response, and the
Google Sheets calls made. -/
def generateReport (env : ReportEnv) (st : SheetState) :
    SheetState × RResp × List SheetsCall :=
  if env.sheetsConfigured = false then
    (st, .err "Integração com Google Sheets não configurada no servidor.", [])
  else
    let cd := clientDemands env
    if cd.length = 0 then
      (st, .ok ("Nenhuma demanda encontrada para o cliente "
                ++ env.clientName ++ ".") none, [])
    else
      match mapOrFail (resolveEntry cd) env.timeEntryPages with
      | none => (st, .err "Falha ao gerar relatório.", [])
      | some reportData =>
        if reportData.length = 0 then
          (st, .ok ("Nenhum registro de tempo na última semana para "
                    ++ env.clientName ++ ".") none, [])
        else
          let w := writeSheet st env.clientName (sheetDataOf reportData)
          (w.1,
           .ok "Planilha atualizada com sucesso!"
             (some ("https://docs.google.com/spreadsheets/d/"
                    ++ env.spreadsheetId)),
           w.2)

/-! ## Lemmas about the aggregation reduce -/

theorem keyTotal_nil (n : String) : keyTotal [] n = 0 := rfl

theorem keyTotal_cons (p : String × ℚ) (l : List (String × ℚ)) (n : String) :
    keyTotal (p :: l) n = (if p.1 = n then p.2 else 0) + keyTotal l n := by
  by_cases h : p.1 = n <;> simp [keyTotal, List.filter_cons, h]

theorem keyTotal_append (l1 l2 : List (String × ℚ)) (n : String) :
    keyTotal (l1 ++ l2) n = keyTotal l1 n + keyTotal l2 n := by
  simp [keyTotal, List.filter_append]

theorem keyTotal_eq_zero_of_not_mem (l : List (String × ℚ)) (n : String)
    (h : n ∉ l.map Prod.fst) : keyTotal l n = 0 := by
  induction l with
  | nil => rfl
  | cons q rest ih =>
    simp only [List.map_cons, List.mem_cons, not_or] at h
    rw [keyTotal_cons, ih h.2, if_neg (fun hq => h.1 hq.symm), add_zero]

theorem map_update_id (l : List (String × ℚ)) (k : String) (d : ℚ)
    (h : k ∉ l.map Prod.fst) :
    (l.map fun p => if p.1 = k then (p.1, p.2 + d) else p) = l := by
  induction l with
  | nil => rfl
  | cons q rest ih =>
    simp only [List.map_cons, List.mem_cons, not_or] at h
    rw [List.map_cons, ih h.2, if_neg (fun hq => h.1 hq.symm)]

theorem keyTotal_update (acc : List (String × ℚ)) (k : String) (d : ℚ)
    (n : String) (hnd : (acc.map Prod.fst).Nodup) :
    keyTotal (acc.map fun p => if p.1 = k then (p.1, p.2 + d) else p) n
      = keyTotal acc n
        + (if n = k ∧ k ∈ acc.map Prod.fst then d else 0) := by
  induction acc with
  | nil => simp [keyTotal]
  | cons q rest ih =>
    simp only [List.map_cons, List.nodup_cons] at hnd
    by_cases hq : q.1 = k
    · subst hq
      rw [List.map_cons, if_pos rfl, map_update_id rest q.1 d hnd.1]
      by_cases hn : n = q.1
      · subst hn
        rw [keyTotal_cons, keyTotal_cons, if_pos rfl, if_pos rfl]
        simp only [List.map_cons, List.mem_cons, true_or, and_true,
          if_pos trivial]
        ring
      · rw [keyTotal_cons, keyTotal_cons,
          if_neg (fun h => hn h.symm), if_neg (fun h => hn h.symm)]
        have hni : ¬(n = q.1 ∧ q.1 ∈ List.map Prod.fst (q :: rest)) :=
          fun hc => hn hc.1
        rw [if_neg hni]
        ring
    · rw [List.map_cons, if_neg hq, keyTotal_cons, keyTotal_cons,
        ih hnd.2]
      have hmem : (k ∈ List.map Prod.fst (q :: rest))
          ↔ k ∈ List.map Prod.fst rest := by
        rw [List.map_cons, List.mem_cons]
        exact or_iff_right (fun h => hq h.symm)
      have hif : (if n = k ∧ k ∈ List.map Prod.fst rest then d else 0)
          = (if n = k ∧ k ∈ List.map Prod.fst (q :: rest) then d else 0) := by
        by_cases h1 : n = k ∧ k ∈ List.map Prod.fst rest
        · rw [if_pos h1, if_pos ⟨h1.1, hmem.mpr h1.2⟩]
        · rw [if_neg h1, if_neg (fun h2 => h1 ⟨h2.1, hmem.mp h2.2⟩)]
      rw [hif]
      ring

theorem map_fst_aggStep (acc : List (String × ℚ)) (e : String × ℚ) :
    (aggStep acc e).map Prod.fst =
      if e.1 ∈ acc.map Prod.fst then acc.map Prod.fst
      else acc.map Prod.fst ++ [e.1] := by
  unfold aggStep
  split
  · next h =>
    rw [List.map_map]
    refine List.map_congr_left ?_
    intro p _
    by_cases hp : p.1 = e.1 <;> simp [hp]
  · next h => simp

theorem nodup_aggStep (acc : List (String × ℚ)) (e : String × ℚ)
    (h : (acc.map Prod.fst).Nodup) :
    ((aggStep acc e).map Prod.fst).Nodup := by
  rw [map_fst_aggStep]
  split
  · exact h
  · next hc => simp [List.nodup_append, h, hc]

theorem mem_map_fst_aggStep (acc : List (String × ℚ)) (e : String × ℚ)
    (n : String) :
    n ∈ (aggStep acc e).map Prod.fst ↔ n ∈ acc.map Prod.fst ∨ n = e.1 := by
  rw [map_fst_aggStep]
  split
  · next h =>
    constructor
    · exact Or.inl
    · rintro (hm | rfl)
      · exact hm
      · exact h
  · simp

theorem keyTotal_aggStep (acc : List (String × ℚ)) (e : String × ℚ)
    (n : String) (h : (acc.map Prod.fst).Nodup) :
    keyTotal (aggStep acc e) n
      = keyTotal acc n + (if n = e.1 then e.2 else 0) := by
  unfold aggStep
  split
  · next hmem =>
    rw [keyTotal_update acc e.1 e.2 n h]
    congr 1
    by_cases hn : n = e.1 <;> simp [hn, hmem]
  · next hmem =>
    rw [keyTotal_append]
    congr 1
    by_cases hn : n = e.1
    · subst hn; simp [keyTotal]
    · rw [if_neg hn, keyTotal_cons, keyTotal_nil,
        if_neg (fun h1 => hn h1.symm), add_zero]

theorem foldl_aggStep_spec (l : List (String × ℚ)) :
    ∀ acc : List (String × ℚ), (acc.map Prod.fst).Nodup →
      ((l.foldl aggStep acc).map Prod.fst).Nodup
        ∧ (∀ n, keyTotal (l.foldl aggStep acc) n
              = keyTotal acc n + keyTotal l n)
        ∧ (∀ n, n ∈ (l.foldl aggStep acc).map Prod.fst ↔
              n ∈ acc.map Prod.fst ∨ n ∈ l.map Prod.fst) := by
  induction l with
  | nil => intro acc h; simpa using ⟨h, fun n => rfl⟩
  | cons e t ih =>
    intro acc h
    obtain ⟨hn, ht, hm⟩ := ih (aggStep acc e) (nodup_aggStep acc e h)
    refine ⟨hn, ?_, ?_⟩
    · intro n
      rw [List.foldl_cons, ht n, keyTotal_aggStep acc e n h, keyTotal_cons]
      by_cases hne : n = e.1
      · subst hne; simp; ring
      · rw [if_neg hne, if_neg (fun h1 => hne h1.symm)]; ring
    · intro n
      rw [List.foldl_cons, hm n, mem_map_fst_aggStep]
      simp only [List.map_cons, List.mem_cons]
      tauto

theorem mapOrFail_eq_none (f : α → Option β) (l : List α) (a : α)
    (ha : a ∈ l) (hf : f a = none) : mapOrFail f l = none := by
  induction l with
  | nil => cases ha
  | cons b t ih =>
    rcases List.mem_cons.mp ha with rfl | hm
    · simp [mapOrFail, hf]
    · unfold mapOrFail
      cases hfb : f b
      · rfl
      · simp [hfb, ih hm]

theorem keyTotal_of_mem_nodup (l : List (String × ℚ)) (p : String × ℚ)
    (hnd : (l.map Prod.fst).Nodup) (hp : p ∈ l) : keyTotal l p.1 = p.2 := by
  induction l with
  | nil => cases hp
  | cons q rest ih =>
    simp only [List.map_cons, List.nodup_cons] at hnd
    rcases List.mem_cons.mp hp with rfl | hmem
    · rw [keyTotal_cons, if_pos rfl,
        keyTotal_eq_zero_of_not_mem rest p.1 hnd.1, add_zero]
    · have hq : q.1 ≠ p.1 := by
        intro hqe
        exact hnd.1 (hqe ▸ List.mem_map_of_mem Prod.fst hmem)
      rw [keyTotal_cons, if_neg hq, ih hnd.2 hmem, zero_add]

/-! ## Lemmas about the sheet write sequence -/

theorem clear_update_eq_map (st : SheetState) (t : String)
    (rows : List (List Cell)) :
    updateS (clearS st t) t rows
      = st.map fun e =>
          if e.1 = t then (e.1, overlayTable [] rows) else e := by
  rw [clearS, updateS, List.map_map]
  refine List.map_congr_left ?_
  intro e _
  by_cases h : e.1 = t <;> simp [h]

theorem writeSheet_fst (st : SheetState) (t : String)
    (rows : List (List Cell)) :
    (writeSheet st t rows).1
      = (if t ∈ st.map Prod.fst then st else addSheetS st t).map
          fun e => if e.1 = t then (e.1, overlayTable [] rows) else e := by
  by_cases h : t ∈ st.map Prod.fst <;>
    simp [writeSheet, h, clear_update_eq_map]

theorem writeSheet_state_idem (st : SheetState) (t : String)
    (rows : List (List Cell)) :
    (writeSheet (writeSheet st t rows).1 t rows).1
      = (writeSheet st t rows).1 := by
  rw [writeSheet_fst, writeSheet_fst]
  have hkeys : ∀ l : SheetState,
      ((l.map fun e =>
          if e.1 = t then (e.1, overlayTable [] rows) else e).map Prod.fst)
        = l.map Prod.fst := by
    intro l
    rw [List.map_map]
    refine List.map_congr_left ?_
    intro e _
    by_cases h : e.1 = t <;> simp [h]
  have hmem : t ∈ (((if t ∈ st.map Prod.fst then st
      else addSheetS st t).map fun e =>
        if e.1 = t then (e.1, overlayTable [] rows) else e).map Prod.fst) := by
    rw [hkeys]
    by_cases h : t ∈ st.map Prod.fst <;> simp [h, addSheetS]
  rw [if_pos hmem, List.map_map]
  refine List.map_congr_left ?_
  intro e _
  by_cases h : e.1 = t <;> simp [h]

/-! ## The claims -/

/-- C1: for every list of (demandName, durationHours) pairs produced by the
mapping step, the aggregation reduce yields a table in which each distinct
demandName appears in exactly one row and that row's total equals the exact
sum of the durations of all pairs with that name (exact string equality). -/
theorem aggregate_groups_exact_sum (entries : List (String × ℚ)) (n : String)
    (h : n ∈ entries.map Prod.fst) :
    (((aggregate entries).map Prod.fst).count n = 1)
      ∧ ∀ p ∈ aggregate entries, p.1 = n → p.2 = keyTotal entries n := by
  unfold aggregate
  obtain ⟨hnd, ht, hm⟩ := foldl_aggStep_spec entries [] (by simp)
  refine ⟨List.count_eq_one_of_mem hnd ((hm n).mpr (Or.inr h)), ?_⟩
  intro p hp hpn
  have hv := keyTotal_of_mem_nodup (entries.foldl aggStep []) p hnd hp
  rw [hpn] at hv
  have htn := ht n
  rw [keyTotal_nil, zero_add] at htn
  rw [← hv, htn]

/-- Witness for C1 at a concrete input with a repeated name. -/
theorem aggregate_groups_exact_sum_witness :
    ("a" ∈ ([("a", (2 : ℚ)), ("b", 1), ("a", 3)].map Prod.fst))
      ∧ ((((aggregate [("a", 2), ("b", 1), ("a", 3)]).map Prod.fst).count "a"
            = 1)
        ∧ ∀ p ∈ aggregate [("a", 2), ("b", 1), ("a", 3)],
            p.1 = "a" → p.2 = keyTotal [("a", 2), ("b", 1), ("a", 3)] "a") :=
  ⟨by decide, aggregate_groups_exact_sum [("a", 2), ("b", 1), ("a", 3)] "a"
    (by decide)⟩

/-- C2: for every duration input in seconds d >= 0, POST /api/time-entries
stores durationHours = round(d/3600, 4 decimal places); d = 3600 gives
1.0000 and d = 90 gives 0.0250. -/
theorem timeEntries_rounded_hours (d : ℚ) (_h : 0 ≤ d) :
    (postTimeEntries d).2 = specRound4dec (d / 3600)
      ∧ (postTimeEntries 3600).2 = 1
      ∧ (postTimeEntries 90).2 = 25 / 1000 := by
  refine ⟨?_, ?_, ?_⟩ <;>
    norm_num [postTimeEntries, storedDurationHours, toFixed4, specRound4dec]

/-- Witness for C2 at d = 90. -/
theorem timeEntries_rounded_hours_witness :
    (0 : ℚ) ≤ 90
      ∧ ((postTimeEntries 90).2 = specRound4dec (90 / 3600)
        ∧ (postTimeEntries 3600).2 = 1
        ∧ (postTimeEntries 90).2 = 25 / 1000) :=
  ⟨by norm_num, timeEntries_rounded_hours 90 (by norm_num)⟩

/-- C3 counterexample: on the scenario input (one demand "Design", one entry
of 7200 seconds), the table's header row is not `["Demand", "Hours"]`, so the
table differs from the one the claim states: the source writes the localized
strings `'Demanda'` and `'Horas'`. -/
theorem report_header_counterexample :
    sheetDataOf [("Design", storedDurationHours 7200)]
      ≠ [[Cell.str "Demand", Cell.str "Hours"],
         [Cell.str "Design", Cell.num 2]] := by
  intro hcontra
  have hhead := List.head_eq_of_cons_eq hcontra
  simp [Cell.str.injEq] at hhead

/-- C3 amended: the header row is the localized `["Demanda", "Horas"]`,
followed by one `[demandName, totalHours]` row per group; on the scenario
(demand "Design" with id D1, one entry of durationSeconds = 7200) the table
is `[["Demanda", "Horas"], ["Design", 2.0]]`. -/
theorem report_header_and_scenario :
    (∀ rd : List (String × ℚ),
        (sheetDataOf rd).headD [] = [Cell.str "Demanda", Cell.str "Horas"]
          ∧ (sheetDataOf rd).tail
              = (aggregate rd).map fun p => [Cell.str p.1, Cell.num p.2])
      ∧ mapOrFail (resolveEntry [("D1", "Design")])
          [⟨some ["D1"], some (storedDurationHours 7200)⟩]
          = some [("Design", storedDurationHours 7200)]
      ∧ sheetDataOf [("Design", storedDurationHours 7200)]
          = [[Cell.str "Demanda", Cell.str "Horas"],
             [Cell.str "Design", Cell.num 2]] := by
  refine ⟨fun rd => ⟨rfl, rfl⟩, rfl, ?_⟩
  have h2 : storedDurationHours 7200 = 2 := by
    norm_num [storedDurationHours, toFixed4]
  rw [h2]
  rfl

/-- C4: with the spreadsheet integration configured, a generate-report
request with zero matching demands, or with demands but zero time entries in
the window, gets an HTTP 200 informational response (not a 500), and in the
zero-demands case no spreadsheet call is made. -/
theorem report_empty_cases_ok200 (env : ReportEnv) (st : SheetState)
    (hc : env.sheetsConfigured = true) :
    (env.demandPages = [] →
        generateReport env st
          = (st, .ok ("Nenhuma demanda encontrada para o cliente "
                      ++ env.clientName ++ ".") none, []))
      ∧ (env.demandPages ≠ [] → env.timeEntryPages = [] →
        generateReport env st
          = (st, .ok ("Nenhum registro de tempo na última semana para "
                      ++ env.clientName ++ ".") none, [])) := by
  constructor
  · intro hd
    simp [generateReport, hc, clientDemands, hd]
  · intro hd hte
    have hne : ¬((clientDemands env).length = 0) := by
      simpa [clientDemands, List.length_eq_zero] using hd
    simp [generateReport, hc, hne, hte, mapOrFail]

/-- Witness for C4 in the zero-demands case. -/
theorem report_empty_cases_ok200_witness :
    (ReportEnv.mk true "C1" "Acme" "SID" [] []).sheetsConfigured = true
      ∧ generateReport (ReportEnv.mk true "C1" "Acme" "SID" [] []) []
          = ([], .ok ("Nenhuma demanda encontrada para o cliente "
                      ++ "Acme" ++ ".") none, []) :=
  ⟨rfl,
    (report_empty_cases_ok200 (ReportEnv.mk true "C1" "Acme" "SID" [] [])
      [] rfl).1 rfl⟩

/-- C5: a fetched time entry whose demand relation is absent or empty (no
relation target at all) aborts the whole report: the endpoint answers 500
with the error message, making no spreadsheet call; the entry is not
skipped. -/
theorem report_missing_relation_aborts (env : ReportEnv) (st : SheetState)
    (page : TimeEntryPage)
    (hc : env.sheetsConfigured = true)
    (hd : env.demandPages ≠ [])
    (hp : page ∈ env.timeEntryPages)
    (hrel : page.demandaRel = none ∨ page.demandaRel = some []) :
    generateReport env st = (st, .err "Falha ao gerar relatório.", [])
      ∧ (generateReport env st).2.1.status = 500 := by
  have hres : resolveEntry (clientDemands env) page = none := by
    rcases hrel with h | h <;> simp [resolveEntry, h]
  have hmf := mapOrFail_eq_none (resolveEntry (clientDemands env))
    env.timeEntryPages page hp hres
  have hne : ¬((clientDemands env).length = 0) := by
    simpa [clientDemands, List.length_eq_zero] using hd
  have heq : generateReport env st
      = (st, .err "Falha ao gerar relatório.", []) := by
    simp [generateReport, hc, hne, hmf]
  exact ⟨heq, by rw [heq]; rfl⟩

/-- Witness for C5: one demand, one entry with an absent Demanda property. -/
theorem report_missing_relation_aborts_witness :
    generateReport
        (ReportEnv.mk true "C1" "Acme" "SID"
          [NotionDemandPage.mk "D1" (some ["Design"]) (some ["C1"])]
          [TimeEntryPage.mk none none]) []
      = ([], .err "Falha ao gerar relatório.", [])
      ∧ (generateReport
          (ReportEnv.mk true "C1" "Acme" "SID"
            [NotionDemandPage.mk "D1" (some ["Design"]) (some ["C1"])]
            [TimeEntryPage.mk none none]) []).2.1.status = 500 :=
  report_missing_relation_aborts
    (ReportEnv.mk true "C1" "Acme" "SID"
      [NotionDemandPage.mk "D1" (some ["Design"]) (some ["C1"])]
      [TimeEntryPage.mk none none]) []
    (TimeEntryPage.mk none none) rfl (by decide) (by decide) (Or.inl rfl)

/-- C6: a time entry whose relation target id is not in the lookup built
from the client's demands resolves to the placeholder name
"Demanda Desconhecida" instead of failing. -/
theorem unknown_demand_placeholder (cd : List (String × String))
    (page : TimeEntryPage) (t : String) (rest : List String)
    (hrel : page.demandaRel = some (t :: rest))
    (hmiss : ∀ d ∈ cd, d.1 ≠ t) :
    resolveEntry cd page
      = some ("Demanda Desconhecida", page.duracao.getD 0) := by
  have hfind : cd.find? (fun d => d.1 = t) = none := by
    rw [List.find?_eq_none]
    intro d hd
    simp [hmiss d hd]
  simp [resolveEntry, hrel, resolveName, hfind]

/-- Witness for C6: lookup holds only D1, entry points at X. -/
theorem unknown_demand_placeholder_witness :
    (TimeEntryPage.mk (some ["X"]) (some 1)).demandaRel = some ("X" :: [])
      ∧ resolveEntry [("D1", "Design")] (TimeEntryPage.mk (some ["X"]) (some 1))
          = some ("Demanda Desconhecida",
              (TimeEntryPage.mk (some ["X"]) (some 1)).duracao.getD 0) :=
  ⟨rfl, unknown_demand_placeholder [("D1", "Design")]
    (TimeEntryPage.mk (some ["X"]) (some 1)) "X" [] rfl (by decide)⟩

/-- C7: with the spreadsheet integration unconfigured, every generate-report
request answers 500 with the configuration error and makes no spreadsheet
call, while the other endpoints still answer 200/201 on their success
paths (none of them reads the spreadsheet configuration). -/
theorem sheets_unconfigured_only_report_fails (env : ReportEnv)
    (st : SheetState) (h : env.sheetsConfigured = false) :
    generateReport env st
      = (st,
         .err "Integração com Google Sheets não configurada no servidor.",
         [])
      ∧ (∀ pages, (getClients pages).1 = 200)
      ∧ (∀ pages, (getDemands pages).1 = 200)
      ∧ (∀ gid cid dn, (postDemands gid cid dn).1 = 201)
      ∧ (∀ d : ℚ, (postTimeEntries d).1 = 201) := by
  refine ⟨?_, fun _ => rfl, fun _ => rfl, fun _ _ _ => rfl, fun _ => rfl⟩
  simp [generateReport, h]

/-- Witness for C7 at a concrete unconfigured environment. -/
theorem sheets_unconfigured_only_report_fails_witness :
    generateReport (ReportEnv.mk false "C1" "Acme" "SID" [] []) []
      = ([],
         .err "Integração com Google Sheets não configurada no servidor.",
         [])
      ∧ (∀ pages, (getClients pages).1 = 200)
      ∧ (∀ pages, (getDemands pages).1 = 200)
      ∧ (∀ gid cid dn, (postDemands gid cid dn).1 = 201)
      ∧ (∀ d : ℚ, (postTimeEntries d).1 = 201) :=
  sheets_unconfigured_only_report_fails
    (ReportEnv.mk false "C1" "Acme" "SID" [] []) [] rfl

/-- C8: two identical generate-report calls against the same remote data
leave the spreadsheet in the same state as the first call alone: the
clear-then-write sequence is idempotent. -/
theorem report_write_idempotent (env : ReportEnv) (st : SheetState) :
    (generateReport env (generateReport env st).1).1
      = (generateReport env st).1 := by
  by_cases h1 : env.sheetsConfigured = false
  · simp [generateReport, h1]
  · by_cases h2 : (clientDemands env).length = 0
    · simp [generateReport, h1, h2]
    · cases hmf : mapOrFail (resolveEntry (clientDemands env))
        env.timeEntryPages with
      | none => simp [generateReport, h1, h2, hmf]
      | some rd =>
        by_cases h3 : rd.length = 0
        · simp [generateReport, h1, h2, hmf, h3]
        · simp [generateReport, h1, h2, hmf, h3, writeSheet_state_idem]

/-- C9: a selected time entry whose duration number field is absent is
mapped with duration 0 (it does not abort the report), and appending such a
pair leaves every group total unchanged. -/
theorem missing_duration_contributes_zero (cd : List (String × String))
    (page : TimeEntryPage) (t : String) (rest : List String)
    (hrel : page.demandaRel = some (t :: rest))
    (hdur : page.duracao = none) :
    resolveEntry cd page = some (resolveName cd t, 0)
      ∧ ∀ (l : List (String × ℚ)) (m : String),
          keyTotal (l ++ [(resolveName cd t, 0)]) m = keyTotal l m := by
  constructor
  · simp [resolveEntry, hrel, hdur]
  · intro l m
    rw [keyTotal_append, keyTotal_cons, keyTotal_nil]
    simp

/-- Witness for C9: entry for D1 with no Duracao number. -/
theorem missing_duration_contributes_zero_witness :
    (TimeEntryPage.mk (some ["D1"]) none).demandaRel = some ("D1" :: [])
      ∧ (resolveEntry [("D1", "Design")] (TimeEntryPage.mk (some ["D1"]) none)
            = some (resolveName [("D1", "Design")] "D1", 0)
        ∧ ∀ (l : List (String × ℚ)) (m : String),
            keyTotal (l ++ [(resolveName [("D1", "Design")] "D1", 0)]) m
              = keyTotal l m) :=
  ⟨rfl, missing_duration_contributes_zero [("D1", "Design")]
    (TimeEntryPage.mk (some ["D1"]) none) "D1" [] rfl rfl⟩

/-- C10: a demand record with no client relation is projected by
GET /api/demands to an object whose clientId field is null, and the request
still answers 200 with that object in the list. -/
theorem demands_no_relation_clientId_null (pages : List NotionDemandPage)
    (p : NotionDemandPage) (hp : p ∈ pages)
    (hrel : p.clienteRel = none ∨ p.clienteRel = some []) :
    (getDemands pages).1 = 200
      ∧ (projectDemand p).clientId = none
      ∧ projectDemand p ∈ (getDemands pages).2 := by
  refine ⟨rfl, ?_, List.mem_map_of_mem projectDemand hp⟩
  rcases hrel with h | h <;> simp [projectDemand, relHeadOrNull, h]

/-- Witness for C10: one page with an absent Cliente property. -/
theorem demands_no_relation_clientId_null_witness :
    (getDemands [NotionDemandPage.mk "D1" (some ["Design"]) none]).1 = 200
      ∧ DemandView.clientId
          (projectDemand (NotionDemandPage.mk "D1" (some ["Design"]) none))
          = none
      ∧ projectDemand (NotionDemandPage.mk "D1" (some ["Design"]) none)
          ∈ (getDemands [NotionDemandPage.mk "D1" (some ["Design"]) none]).2 :=
  demands_no_relation_clientId_null
    [NotionDemandPage.mk "D1" (some ["Design"]) none]
    (NotionDemandPage.mk "D1" (some ["Design"]) none)
    (by decide) (Or.inl rfl)

end Cronometro
